import Mathlib

/-!
Shallow embedding of the data-assembly pipeline of the Louisiana labor
economics dashboards (src/economics_dashboard.py and
src/economics_dashboard_3cols.py).

Dates are encoded as natural numbers `y * 10000 + m * 100 + d`, so the usual
order on `Nat` agrees with chronological order and the calendar year of an
encoded date is recovered by dividing by 10000.  Numeric observations are
rationals.  The FRED backend is a parameter `FredApi`: `none` models an
exception raised during `fred.get_series`, `some rows` a successful
date-indexed retrieval.
-/

/-- A fetched observation series: the two-column (Date, value) frame shape
produced by `get_series` (economics_dashboard.py lines 38-47). -/
abbrev Series := List (Nat × ℚ)

/-- Calendar year of an encoded date (models `.dt.year`). -/
def yearOf (d : Nat) : Nat := d / 10000

/-- The STATE_SERIES_IDS mapping of economics_dashboard.py lines 21-35
(identical in economics_dashboard_3cols.py lines 24-38). -/
def STATE_SERIES_IDS : List (String × String) := [
  ("Alabama", "ALUR"), ("Alaska", "AKUR"), ("Arizona", "AZUR"), ("Arkansas", "ARUR"),
  ("California", "CAUR"), ("Colorado", "COUR"), ("Connecticut", "CTUR"), ("Delaware", "DEUR"),
  ("District of Columbia", "DCUR"), ("Florida", "FLUR"), ("Georgia", "GAUR"), ("Hawaii", "HIUR"),
  ("Idaho", "IDUR"), ("Illinois", "ILUR"), ("Indiana", "INUR"), ("Iowa", "IAUR"), ("Kansas", "KSUR"),
  ("Kentucky", "KYUR"), ("Louisiana", "LAUR"), ("Maine", "MEUR"), ("Maryland", "MDUR"),
  ("Massachusetts", "MAUR"), ("Michigan", "MIUR"), ("Minnesota", "MNUR"), ("Mississippi", "MSUR"),
  ("Missouri", "MOUR"), ("Montana", "MTUR"), ("Nebraska", "NEUR"), ("Nevada", "NVUR"),
  ("New Hampshire", "NHUR"), ("New Jersey", "NJUR"), ("New Mexico", "NMUR"), ("New York", "NYUR"),
  ("North Carolina", "NCUR"), ("North Dakota", "NDUR"), ("Ohio", "OHUR"), ("Oklahoma", "OKUR"),
  ("Oregon", "ORUR"), ("Pennsylvania", "PAUR"), ("Rhode Island", "RIUR"), ("South Carolina", "SCUR"),
  ("South Dakota", "SDUR"), ("Tennessee", "TNUR"), ("Texas", "TXUR"), ("Utah", "UTUR"),
  ("Vermont", "VTUR"), ("Virginia", "VAUR"), ("Washington", "WAUR"), ("West Virginia", "WVUR"),
  ("Wisconsin", "WIUR"), ("Wyoming", "WYUR")]

/-- One retrieval attempt per series id: `none` models an exception raised by
the backing API call, `some rows` a successful date-indexed series. -/
abbrev FredApi := String → Option Series

/-- get_series (economics_dashboard.py lines 38-47): on success the fetched
series is relabeled into the two-column (Date, Unemployment Rate) shape; on
any exception an empty frame is returned after reporting the error. -/
def get_series (api : FredApi) (series_id : String) : Series :=
  match api series_id with
  | some rows => rows
  | none => []

/-- Whether get_series reported a fetch failure for this id (the st.error
call in its except branch). -/
def get_series_failed (api : FredApi) (series_id : String) : Bool :=
  (api series_id).isNone

/-- STATE_SERIES_IDS indexing used by the merge loop (`STATE_SERIES_IDS[state]`;
selections always come from the dict's key set). -/
def seriesId (state : String) : String :=
  (STATE_SERIES_IDS.lookup state).getD ""

/-- One row of comparison_df: the Date key, the United States column, and the
state columns accumulated by the merge loop, in selection order. -/
structure CRow where
  date : Nat
  us : ℚ
  cols : List (Option ℚ)
  deriving DecidableEq, Repr

/-- comparison_df: the state-column header (the columns beyond Date and
United States) and the rows. -/
structure CompTable where
  header : List String
  rows : List CRow
  deriving DecidableEq, Repr

/-- Left join of one state's series onto one backbone row by exact Date match
(`pd.merge(..., on="Date", how="left")`): no match contributes a null cell,
and each matching right row contributes one output row. -/
def joinRow (s : Series) (r : CRow) : List CRow :=
  match s.filter (fun p => p.1 == r.date) with
  | [] => [⟨r.date, r.us, r.cols ++ [none]⟩]
  | ms => ms.map (fun m => ⟨r.date, r.us, r.cols ++ [some m.2]⟩)

/-- One iteration of the merge loop: add the state's column to the table. -/
def mergeState (t : CompTable) (state : String) (s : Series) : CompTable :=
  ⟨t.header ++ [state], t.rows.flatMap (joinRow s)⟩

/-- comparison_df construction (economics_dashboard.py lines 58-66, identical
in economics_dashboard_3cols.py lines 146-153): start from the national
series as the Date backbone; for each selected state fetch its series and,
when non-empty, left-join it onto the table by Date. -/
def buildComparison (us : Series) (states_selected : List String) (api : FredApi) : CompTable :=
  states_selected.foldl
    (fun t state =>
      let state_data := get_series api (seriesId state)
      if state_data.isEmpty then t else mergeState t state state_data)
    ⟨[], us.map (fun p => ⟨p.1, p.2, []⟩)⟩

/-- The date-window mask (economics_dashboard.py lines 76-77, 3cols lines
156-158): keep rows whose Date lies between start_date and end_date,
inclusive on both ends. -/
def filterWindow (t : CompTable) (start_date end_date : Nat) : CompTable :=
  ⟨t.header, t.rows.filter (fun r => decide (start_date ≤ r.date ∧ r.date ≤ end_date))⟩

/-- Reading one state's cell of a row by column name (`comparison_df[state]`
restricted to one row); `none` both for a stored NaN and for use under the
column-existence guards of the callers. -/
def getCol (t : CompTable) (name : String) (r : CRow) : Option ℚ :=
  match t.header.findIdx? (fun h => h == name) with
  | some i => (r.cols.get? i).getD none
  | none => none

/-- The state-lines chart loop (economics_dashboard.py lines 92-98, 3cols
lines 169-175) evaluates `comparison_df[state]` for every selected state; a
missing column raises KeyError there, aborting the render pass.  True iff
every selected state's column exists in the table. -/
def renderPassOk (t : CompTable) (states_selected : List String) : Bool :=
  states_selected.all (fun state => t.header.contains state)

/-- Minimum of a series' Date column (`df["Date"].min()`, meaningful for a
non-empty series). -/
def datesMin : Series → Nat
  | [] => 0
  | p :: ps => (ps.map Prod.fst).foldl min p.1

/-- Maximum of a series' Date column (`df["Date"].max()`). -/
def datesMax : Series → Nat
  | [] => 0
  | p :: ps => (ps.map Prod.fst).foldl max p.1

/-- common_start of economics_dashboard.py lines 68-70: the maximum, over the
national series and every selected state's fetched series, of the series'
minimum date. -/
def common_start (us : Series) (states_selected : List String) (api : FredApi) : Nat :=
  (states_selected.map (fun s => datesMin (get_series api (seriesId s)))).foldl max (datesMin us)

/-- common_end of economics_dashboard.py lines 68-71: the minimum, over the
national series and every selected state's fetched series, of the series'
maximum date. -/
def common_end (us : Series) (states_selected : List String) (api : FredApi) : Nat :=
  (states_selected.map (fun s => datesMax (get_series api (seriesId s)))).foldl min (datesMax us)

/-- all_state_dates of economics_dashboard_3cols.py line 118: the Date
columns of the selected states' fetched series, dropping failed (empty)
fetches; the national series is not included. -/
def all_state_dates (states_selected : List String) (api : FredApi) : List Series :=
  states_selected.filterMap (fun s =>
    let sd := get_series api (seriesId s)
    if sd.isEmpty then none else some sd)

/-- The (common_start, common_end) pair of economics_dashboard_3cols.py lines
119-123: bounds over the selected states' series only, `none` when every
fetch failed or no state is selected. -/
def common_bounds3 (states_selected : List String) (api : FredApi) : Option (Nat × Nat) :=
  match all_state_dates states_selected api with
  | [] => none
  | s :: ss => some ((ss.map datesMin).foldl max (datesMin s),
                     (ss.map datesMax).foldl min (datesMax s))

/-- Arithmetic mean of a list of rationals (pandas `.mean()` over the
non-null values of a column). -/
def meanQ (l : List ℚ) : ℚ := l.sum / l.length

/-- Python `round(x, 2)`: rounding to the nearest multiple of 1/100.  Exact
ties, which the pipeline's data never hits, go up in this model where
Python's float round takes the nearest even multiple. -/
def round2 (q : ℚ) : ℚ := (round (q * 100) : ℤ) / 100

/-- df_year of economics_dashboard_3cols.py line 212: the comparison-table
rows whose Date falls in the selected calendar year. -/
def df_year (t : CompTable) (y : Nat) : CompTable :=
  ⟨t.header, t.rows.filter (fun r => yearOf r.date == y)⟩

/-- `df[name].dropna()`: the non-null values of one state's column, in row
order. -/
def colDropna (t : CompTable) (name : String) : List ℚ :=
  t.rows.filterMap (fun r => getCol t name r)

/-- state_map_data of economics_dashboard_3cols.py lines 214-219: for each
selected state whose column exists in the year's slice and has at least one
non-null value there, record the state together with the rounded mean of the
column over the year's rows. -/
def state_map_data (t : CompTable) (y : Nat) (states_selected : List String) :
    List (String × ℚ) :=
  states_selected.filterMap (fun state =>
    if state ∈ (df_year t y).header ∧ colDropna (df_year t y) state ≠ [] then
      some (state, round2 (meanQ (colDropna (df_year t y) state)))
    else none)

/-- One raw data row of the bulk county file, restricted to the columns the
loader's cleaning logic reads: the hand-maintained Parish name and the raw
Date and year cells.  Metric columns pass through the loader untouched (only
the rate column is renamed) and are omitted from the model. -/
structure CountyRowIn where
  parish : String
  dateStr : String
  yearStr : String
  deriving DecidableEq, Repr

/-- The bulk county file as read_csv delivers it, after column-name
trimming: which of the relevant columns are present, and the data rows. -/
structure CountyFile where
  hasParish : Bool
  hasDate : Bool
  hasYear : Bool
  rows : List CountyRowIn
  deriving DecidableEq, Repr

/-- One row of the loaded CountyDataset: trimmed parish name, parsed Date
(when the Date branch ran and the cell parsed), derived year, and the FIPS
code looked up from the catalog. -/
structure CountyRowOut where
  parish : String
  date : Option Nat
  year : Option Int
  fips : Option String
  deriving DecidableEq, Repr

/-- The loader's result: whether the output frame carries a Date column, the
cleaned rows, and whether a fatal diagnostic was reported (an st.error
followed by returning an empty frame). -/
structure CountyResult where
  hasDateCol : Bool
  rows : List CountyRowOut
  fatalReported : Bool
  deriving DecidableEq, Repr

/-- The LA_PARISH_FIPS mapping of economics_dashboard.py lines 237-302
(identical in economics_dashboard_3cols.py lines 311-329). -/
def LA_PARISH_FIPS : List (String × String) := [
  ("Acadia", "22001"), ("Allen", "22003"), ("Ascension", "22005"), ("Assumption", "22007"),
  ("Avoyelles", "22009"), ("Beauregard", "22011"), ("Bienville", "22013"), ("Bossier", "22015"),
  ("Caddo", "22017"), ("Calcasieu", "22019"), ("Caldwell", "22021"), ("Cameron", "22023"),
  ("Catahoula", "22025"), ("Claiborne", "22027"), ("Concordia", "22029"), ("De Soto", "22031"),
  ("East Baton Rouge", "22033"), ("East Carroll", "22035"), ("East Feliciana", "22037"),
  ("Evangeline", "22039"), ("Franklin", "22041"), ("Grant", "22043"), ("Iberia", "22045"),
  ("Iberville", "22047"), ("Jackson", "22049"), ("Jefferson", "22051"), ("Jefferson Davis", "22053"),
  ("Lafayette", "22055"), ("Lafourche", "22057"), ("LaSalle", "22059"), ("Lincoln", "22061"),
  ("Livingston", "22063"), ("Madison", "22065"), ("Morehouse", "22067"), ("Natchitoches", "22069"),
  ("Orleans", "22071"), ("Ouachita", "22073"), ("Plaquemines", "22075"), ("Pointe Coupee", "22077"),
  ("Rapides", "22079"), ("Red River", "22081"), ("Richland", "22083"), ("Sabine", "22085"),
  ("St. Bernard", "22087"), ("St. Charles", "22089"), ("St. Helena", "22091"), ("St. James", "22093"),
  ("St. John the Baptist", "22095"), ("St. Landry", "22097"), ("St. Martin", "22099"),
  ("St. Mary", "22101"), ("St. Tammany", "22103"), ("Tangipahoa", "22105"), ("Tensas", "22107"),
  ("Terrebonne", "22109"), ("Union", "22111"), ("Vermilion", "22113"), ("Vernon", "22115"),
  ("Washington", "22117"), ("Webster", "22119"), ("West Baton Rouge", "22121"),
  ("West Carroll", "22123"), ("West Feliciana", "22125"), ("Winn", "22127")]

/-- The whitespace test of Python str.strip (space, tab, newline, carriage
return, vertical tab, form feed). -/
def pyIsSpace (c : Char) : Bool :=
  c == ' ' || c == '\t' || c == '\n' || c == '\r' || c == '\x0b' || c == '\x0c'

/-- Python str.strip as applied by `df["Parish"].str.strip()`: drop
whitespace from both ends of the string. -/
def strip (s : String) : String :=
  ⟨((s.data.dropWhile pyIsSpace).reverse.dropWhile pyIsSpace).reverse⟩

/-- load_county_data (economics_dashboard.py lines 200-307, identical logic
in economics_dashboard_3cols.py lines 281-333).  `parseDate` models
`pd.to_datetime(..., errors=coerce)` on one cell, `parseYear` models
`pd.to_numeric(..., errors=coerce)`.  Steps, in source order: require the
Parish column and trim its values; in the Date branch coerce-parse the Date
column, treat an all-null parse result as fatal, and derive year from the
parsed dates; otherwise fall back to a coerced numeric year column, and fail
when neither column exists; finally map trimmed parish names to FIPS codes
and drop the rows whose lookup missed. -/
def load_county_data (parseDate : String → Option Nat) (parseYear : String → Option Int)
    (file : CountyFile) : CountyResult :=
  if ¬ file.hasParish then ⟨false, [], true⟩
  else
    let stripped := file.rows.map (fun r => { r with parish := strip r.parish })
    if file.hasDate then
      let dated := stripped.map (fun r => (r, parseDate r.dateStr))
      if dated.all (fun rd => rd.2.isNone) then ⟨true, [], true⟩
      else
        let outRows : List CountyRowOut := dated.map (fun rd =>
          ⟨rd.1.parish, rd.2, rd.2.map (fun d => (yearOf d : Int)),
            LA_PARISH_FIPS.lookup rd.1.parish⟩)
        ⟨true, outRows.filter (fun r => r.fips.isSome), false⟩
    else if file.hasYear then
      let outRows : List CountyRowOut := stripped.map (fun r =>
        ⟨r.parish, none, parseYear r.yearStr, LA_PARISH_FIPS.lookup r.parish⟩)
      ⟨false, outRows.filter (fun r => r.fips.isSome), false⟩
    else ⟨false, [], true⟩

/-- The county sidebar's date-range computation of economics_dashboard_3cols.py
lines 365-366: it reads `county_df["Date"].min()` and `.max()`
unconditionally.  `none` models the KeyError raised when the loaded frame has
no Date column (and the `.date()` failure when the column holds no parsed
date at all); otherwise the bounds over the parsed dates. -/
def county_common_bounds (res : CountyResult) : Option (Nat × Nat) :=
  if res.hasDateCol then
    match res.rows.filterMap (fun r => r.date) with
    | [] => none
    | d :: ds => some (ds.foldl min d, ds.foldl max d)
  else none

lemma length_filter_key_le_one (s : Series) (d : Nat)
    (hnd : (s.map Prod.fst).Nodup) :
    (s.filter (fun p => p.1 == d)).length ≤ 1 := by
  induction s with
  | nil => simp
  | cons p ps ih =>
    simp only [List.map_cons, List.nodup_cons] at hnd
    by_cases h : p.1 = d
    · rw [List.filter_cons_of_pos (by simp [h])]
      have hnil : ps.filter (fun q => q.1 == d) = [] := by
        rw [List.filter_eq_nil_iff]
        intro q hq
        simp only [beq_iff_eq]
        intro hqd
        exact hnd.1 (h ▸ hqd ▸ List.mem_map_of_mem Prod.fst hq)
      simp [hnil]
    · rw [List.filter_cons_of_neg (by simp [h])]
      exact ih hnd.2

lemma joinRow_map_date (s : Series) (r : CRow)
    (hnd : (s.map Prod.fst).Nodup) :
    (joinRow s r).map CRow.date = [r.date] := by
  unfold joinRow
  cases h : s.filter (fun p => p.1 == r.date) with
  | nil => simp
  | cons m ms =>
    have hlen := length_filter_key_le_one s r.date hnd
    rw [h] at hlen
    have hms : ms = [] := by
      cases ms with
      | nil => rfl
      | cons _ _ => simp at hlen
    subst hms
    simp

lemma mergeState_map_date (t : CompTable) (st : String) (s : Series)
    (hnd : (s.map Prod.fst).Nodup) :
    (mergeState t st s).rows.map CRow.date = t.rows.map CRow.date := by
  unfold mergeState
  simp only
  induction t.rows with
  | nil => rfl
  | cons r rs ih =>
    simp only [List.flatMap_cons, List.map_append, List.map_cons,
      joinRow_map_date s r hnd, ih, List.singleton_append]

lemma buildComparison_go_map_date (api : FredApi) (sel : List String) (t : CompTable)
    (hnd : ∀ st ∈ sel, ((get_series api (seriesId st)).map Prod.fst).Nodup) :
    ((sel.foldl (fun t state =>
        let state_data := get_series api (seriesId state)
        if state_data.isEmpty then t else mergeState t state state_data) t).rows.map CRow.date)
      = t.rows.map CRow.date := by
  induction sel generalizing t with
  | nil => rfl
  | cons st sts ih =>
    simp only [List.foldl_cons]
    rw [ih _ (fun x hx => hnd x (List.mem_cons_of_mem _ hx))]
    by_cases h : (get_series api (seriesId st)).isEmpty
    · simp [h]
    · simp [h, mergeState_map_date _ _ _ (hnd st (List.mem_cons_self _ _))]

lemma buildComparison_map_date (us : Series) (sel : List String) (api : FredApi)
    (hnd : ∀ st ∈ sel, ((get_series api (seriesId st)).map Prod.fst).Nodup) :
    (buildComparison us sel api).rows.map CRow.date = us.map Prod.fst := by
  unfold buildComparison
  rw [buildComparison_go_map_date api sel _ hnd]
  simp [List.map_map, Function.comp]

lemma map_date_filter (rows : List CRow) (p : Nat → Bool) :
    (rows.filter (fun r => p r.date)).map CRow.date = (rows.map CRow.date).filter p := by
  induction rows with
  | nil => rfl
  | cons r rs ih =>
    simp only [List.map_cons, List.filter_cons]
    cases h : p r.date <;> simp [h, ih]

lemma filterWindow_map_date (t : CompTable) (s e : Nat) :
    (filterWindow t s e).rows.map CRow.date
      = (t.rows.map CRow.date).filter (fun d => decide (s ≤ d ∧ d ≤ e)) := by
  unfold filterWindow
  exact map_date_filter t.rows (fun d => decide (s ≤ d ∧ d ≤ e))

/-- C1: for every non-empty state selection and requested window, the
window-filtered comparison table's Date column equals the national (UNRATE)
series' Date column restricted to that window: the left joins neither remove
nor add date rows.  The hypothesis that each fetched state series has
pairwise-distinct dates is the spec's ObservationSeries invariant (dates are
distinct and increasing). -/
theorem C1_left_join_backbone (api : FredApi) (states_selected : List String)
    (start_date end_date : Nat)
    (_hne : states_selected ≠ [])
    (hnd : ∀ st ∈ states_selected,
      ((get_series api (seriesId st)).map Prod.fst).Nodup) :
    ((filterWindow (buildComparison (get_series api "UNRATE") states_selected api)
        start_date end_date).rows.map CRow.date)
      = ((get_series api "UNRATE").map Prod.fst).filter
          (fun d => decide (start_date ≤ d ∧ d ≤ end_date)) := by
  rw [filterWindow_map_date, buildComparison_map_date _ _ _ hnd]

/-- A concrete backend for the C1 witness: a two-point national series and a
one-point Louisiana series. -/
def apiC1 : FredApi := fun id =>
  if id == "UNRATE" then some [(19900101, 5), (19900201, 6)]
  else if id == "LAUR" then some [(19900101, 4)]
  else none

/-- Witness for C1 at a concrete backend, selection and window. -/
theorem C1_left_join_backbone_witness :
    (["Louisiana"] ≠ ([] : List String)) ∧
    (∀ st ∈ ["Louisiana"], ((get_series apiC1 (seriesId st)).map Prod.fst).Nodup) ∧
    ((filterWindow (buildComparison (get_series apiC1 "UNRATE") ["Louisiana"] apiC1)
        19900101 19900201).rows.map CRow.date)
      = ((get_series apiC1 "UNRATE").map Prod.fst).filter
          (fun d => decide (19900101 ≤ d ∧ d ≤ 19900201)) :=
  ⟨by decide, by decide,
    C1_left_join_backbone apiC1 ["Louisiana"] 19900101 19900201 (by decide) (by decide)⟩

/-- A backend for the C2 scenario: the national series succeeds, the Texas
series (TXUR) raises, every other series succeeds. -/
def apiC2 : FredApi := fun id =>
  if id == "TXUR" then none
  else some [(19900101, 5), (19900201, 6)]

/-- C2, evaluated at the failing input: with Texas selected and its fetch
failing, get_series reports the failure and returns an empty frame, but the
merge loop then skips the empty series entirely, so the assembled table has
no Texas column at all (not an all-null one), and the chart loop's
`comparison_df[state]` access aborts the render pass with a KeyError. -/
theorem C2_fetch_failure_aborts_render :
    get_series_failed apiC2 "TXUR" = true ∧
    get_series apiC2 (seriesId "Texas") = [] ∧
    (buildComparison (get_series apiC2 "UNRATE") ["Texas"] apiC2).header = [] ∧
    renderPassOk (buildComparison (get_series apiC2 "UNRATE") ["Texas"] apiC2) ["Texas"]
      = false := by decide

lemma mem_state_map_data (t : CompTable) (y : Nat) (sel : List String)
    (st : String) (v : ℚ) :
    (st, v) ∈ state_map_data t y sel ↔
      st ∈ sel ∧ st ∈ (df_year t y).header ∧ colDropna (df_year t y) st ≠ [] ∧
        v = round2 (meanQ (colDropna (df_year t y) st)) := by
  unfold state_map_data
  rw [List.mem_filterMap]
  constructor
  · rintro ⟨a, ha, hfa⟩
    split_ifs at hfa with hP
    simp only [Option.some.injEq, Prod.mk.injEq] at hfa
    obtain ⟨rfl, rfl⟩ := hfa
    exact ⟨ha, hP.1, hP.2, rfl⟩
  · rintro ⟨hsel, h1, h2, rfl⟩
    exact ⟨st, hsel, by rw [if_pos ⟨h1, h2⟩]⟩

lemma length_mul_le_sum (l : List ℚ) (lo : ℚ) (h : ∀ x ∈ l, lo ≤ x) :
    (l.length : ℚ) * lo ≤ l.sum := by
  induction l with
  | nil => simp
  | cons x xs ih =>
    simp only [List.length_cons, List.sum_cons]
    push_cast
    rw [add_mul, one_mul]
    have h1 := h x (List.mem_cons_self x xs)
    have h2 := ih (fun y hy => h y (List.mem_cons_of_mem _ hy))
    linarith

lemma sum_le_length_mul (l : List ℚ) (hi : ℚ) (h : ∀ x ∈ l, x ≤ hi) :
    l.sum ≤ (l.length : ℚ) * hi := by
  induction l with
  | nil => simp
  | cons x xs ih =>
    simp only [List.length_cons, List.sum_cons]
    push_cast
    rw [add_mul, one_mul]
    have h1 := h x (List.mem_cons_self x xs)
    have h2 := ih (fun y hy => h y (List.mem_cons_of_mem _ hy))
    linarith

lemma le_meanQ (l : List ℚ) (lo : ℚ) (hne : l ≠ []) (h : ∀ x ∈ l, lo ≤ x) :
    lo ≤ meanQ l := by
  unfold meanQ
  have hlen : (0 : ℚ) < l.length := by
    exact_mod_cast List.length_pos.mpr hne
  rw [le_div_iff₀ hlen]
  have := length_mul_le_sum l lo h
  linarith

lemma meanQ_le (l : List ℚ) (hi : ℚ) (hne : l ≠ []) (h : ∀ x ∈ l, x ≤ hi) :
    meanQ l ≤ hi := by
  unfold meanQ
  have hlen : (0 : ℚ) < l.length := by
    exact_mod_cast List.length_pos.mpr hne
  rw [div_le_iff₀ hlen]
  have := sum_le_length_mul l hi h
  linarith

lemma abs_round2_sub (q : ℚ) : |round2 q - q| ≤ 1 / 200 := by
  have h := abs_sub_round (q * 100)
  have heq : round2 q - q = ((round (q * 100) : ℚ) - q * 100) / 100 := by
    unfold round2
    ring
  rw [abs_sub_comm] at h
  rw [heq, abs_div, abs_of_pos (show (0 : ℚ) < 100 by norm_num)]
  linarith

/-- Comparison table for the C3 counterexample: one Louisiana column holding
the values 1, 1, 2 across three months of 1990. -/
def tblC3 : CompTable :=
  ⟨["Louisiana"],
    [⟨19900101, 5, [some 1]⟩, ⟨19900201, 5, [some 1]⟩, ⟨19900301, 5, [some 2]⟩]⟩

lemma colDropna_tblC3 : colDropna (df_year tblC3 1990) "Louisiana" = [1, 1, 2] := by
  simp [colDropna, df_year, tblC3, getCol, yearOf]

/-- C3 fails as stated: the value recorded for Louisiana for 1990 is
round(4/3, 2) = 1.33, not the arithmetic mean 4/3 of its non-null values
(line 219 applies round(., 2) before storing). -/
theorem C3_counterexample :
    ("Louisiana", (133 : ℚ) / 100) ∈ state_map_data tblC3 1990 ["Louisiana"] ∧
    meanQ (colDropna (df_year tblC3 1990) "Louisiana") = 4 / 3 ∧
    ("Louisiana", meanQ (colDropna (df_year tblC3 1990) "Louisiana"))
      ∉ state_map_data tblC3 1990 ["Louisiana"] := by
  have hmean : meanQ (colDropna (df_year tblC3 1990) "Louisiana") = 4 / 3 := by
    rw [colDropna_tblC3]
    norm_num [meanQ]
  refine ⟨?_, hmean, ?_⟩
  · rw [mem_state_map_data]
    refine ⟨by decide, by decide, by rw [colDropna_tblC3]; simp, ?_⟩
    rw [hmean]
    norm_num [round2, round_eq]
  · intro hmem
    have := ((mem_state_map_data _ _ _ _ _).mp hmem).2.2.2
    rw [hmean] at this
    norm_num [round2, round_eq] at this

/-- C3 amended: state_map_data restricts to the selected year's rows and maps
each selected state whose column exists and has at least one non-null value
there to the arithmetic mean of those values rounded to 2 decimal places;
states without observations in that year are omitted from the mapping rather
than included as null. -/
theorem C3_project_year (t : CompTable) (y : Nat) (sel : List String)
    (st : String) (v : ℚ) :
    (st, v) ∈ state_map_data t y sel ↔
      st ∈ sel ∧ st ∈ t.header ∧ colDropna (df_year t y) st ≠ [] ∧
        v = round2 (meanQ (colDropna (df_year t y) st)) :=
  mem_state_map_data t y sel st v

/-- Witness for C3's amended statement at a concrete table. -/
theorem C3_project_year_witness :
    ("Louisiana", round2 (meanQ (colDropna (df_year tblC3 1990) "Louisiana")))
      ∈ state_map_data tblC3 1990 ["Louisiana"] :=
  (C3_project_year tblC3 1990 ["Louisiana"] "Louisiana" _).mpr
    ⟨by decide, by decide, by rw [colDropna_tblC3]; simp, rfl⟩

/-- Comparison table for the C4 counterexample: a single 1990 observation
with value 1.234 for Louisiana. -/
def tblC4 : CompTable :=
  ⟨["Louisiana"], [⟨19900101, 5, [some (1234 / 1000)]⟩]⟩

lemma colDropna_tblC4 : colDropna (df_year tblC4 1990) "Louisiana" = [1234 / 1000] := by
  simp [colDropna, df_year, tblC4, getCol, yearOf]

lemma mem_smd_tblC4 :
    ("Louisiana", (123 : ℚ) / 100) ∈ state_map_data tblC4 1990 ["Louisiana"] := by
  rw [mem_state_map_data]
  refine ⟨by decide, by decide, by rw [colDropna_tblC4]; simp, ?_⟩
  rw [colDropna_tblC4]
  norm_num [meanQ, round2, round_eq]

/-- C4 fails as stated: with the single raw observation 1.234, the recorded
value is round(1.234, 2) = 1.23, which lies strictly below the minimum
(= 1.234) of the region's non-null raw observations for that year. -/
theorem C4_counterexample :
    ("Louisiana", (123 : ℚ) / 100) ∈ state_map_data tblC4 1990 ["Louisiana"] ∧
    colDropna (df_year tblC4 1990) "Louisiana" = [1234 / 1000] ∧
    ¬ ((1234 : ℚ) / 1000 ≤ 123 / 100) := by
  exact ⟨mem_smd_tblC4, colDropna_tblC4, by norm_num⟩

/-- C4 amended: every entry of state_map_data names a selected state; the
unrounded mean of the state's non-null observations for the year lies between
any lower and upper bound of those observations (in particular between their
minimum and maximum), and the stored value — that mean rounded to 2 decimal
places — therefore lies within the same bounds widened by the rounding
error 1/200. -/
theorem C4_mean_bounds (t : CompTable) (y : Nat) (sel : List String)
    (st : String) (v : ℚ) (h : (st, v) ∈ state_map_data t y sel)
    (lo hi : ℚ)
    (hlo : ∀ x ∈ colDropna (df_year t y) st, lo ≤ x)
    (hhi : ∀ x ∈ colDropna (df_year t y) st, x ≤ hi) :
    st ∈ sel ∧
    lo ≤ meanQ (colDropna (df_year t y) st) ∧
    meanQ (colDropna (df_year t y) st) ≤ hi ∧
    lo - 1 / 200 ≤ v ∧ v ≤ hi + 1 / 200 := by
  obtain ⟨hsel, hhdr, hne, hv⟩ := (mem_state_map_data t y sel st v).mp h
  have h1 := le_meanQ _ lo hne hlo
  have h2 := meanQ_le _ hi hne hhi
  have h3 := abs_round2_sub (meanQ (colDropna (df_year t y) st))
  rw [abs_le] at h3
  subst hv
  exact ⟨hsel, h1, h2, by linarith [h3.1], by linarith [h3.2]⟩

/-- Witness for C4's amended statement at a concrete table. -/
theorem C4_mean_bounds_witness :
    (("Louisiana", (123 : ℚ) / 100) ∈ state_map_data tblC4 1990 ["Louisiana"]) ∧
    ((∀ x ∈ colDropna (df_year tblC4 1990) "Louisiana", (1234 : ℚ) / 1000 ≤ x) ∧
      (∀ x ∈ colDropna (df_year tblC4 1990) "Louisiana", x ≤ (1234 : ℚ) / 1000)) ∧
    ("Louisiana" ∈ (["Louisiana"] : List String) ∧
      (1234 : ℚ) / 1000 ≤ meanQ (colDropna (df_year tblC4 1990) "Louisiana") ∧
      meanQ (colDropna (df_year tblC4 1990) "Louisiana") ≤ (1234 : ℚ) / 1000 ∧
      (1234 : ℚ) / 1000 - 1 / 200 ≤ (123 : ℚ) / 100 ∧
      (123 : ℚ) / 100 ≤ (1234 : ℚ) / 1000 + 1 / 200) := by
  have hlo : ∀ x ∈ colDropna (df_year tblC4 1990) "Louisiana", (1234 : ℚ) / 1000 ≤ x := by
    rw [colDropna_tblC4]
    simp
  have hhi : ∀ x ∈ colDropna (df_year tblC4 1990) "Louisiana", x ≤ (1234 : ℚ) / 1000 := by
    rw [colDropna_tblC4]
    simp
  exact ⟨mem_smd_tblC4, ⟨hlo, hhi⟩,
    C4_mean_bounds tblC4 1990 ["Louisiana"] "Louisiana" (123 / 100) mem_smd_tblC4
      (1234 / 1000) (1234 / 1000) hlo hhi⟩

lemma le_foldl_max (l : List Nat) (b : Nat) : b ≤ l.foldl max b := by
  induction l generalizing b with
  | nil => exact le_refl b
  | cons x xs ih => exact le_trans (le_max_left b x) (ih (max b x))

lemma mem_le_foldl_max (l : List Nat) (b x : Nat) : x ∈ l → x ≤ l.foldl max b := by
  induction l generalizing b with
  | nil => intro hx; cases hx
  | cons y ys ih =>
    intro hx
    rcases List.mem_cons.mp hx with rfl | h
    · exact le_trans (le_max_right b x) (le_foldl_max ys (max b x))
    · exact ih (max b y) h

lemma foldl_min_le (l : List Nat) (b : Nat) : l.foldl min b ≤ b := by
  induction l generalizing b with
  | nil => exact le_refl b
  | cons x xs ih => exact le_trans (ih (min b x)) (min_le_left b x)

lemma foldl_min_le_mem (l : List Nat) (b x : Nat) : x ∈ l → l.foldl min b ≤ x := by
  induction l generalizing b with
  | nil => intro hx; cases hx
  | cons y ys ih =>
    intro hx
    rcases List.mem_cons.mp hx with rfl | h
    · exact le_trans (foldl_min_le ys (min b x)) (min_le_right b x)
    · exact ih (min b y) h

/-- A backend for the C5 counterexample: the national series ends before the
California series begins. -/
def apiC5 : FredApi := fun id =>
  if id == "UNRATE" then some [(19500101, 3)]
  else if id == "CAUR" then some [(19760101, 6), (19800101, 7)]
  else none

/-- C5 fails as stated for economics_dashboard_3cols.py: with California
selected, the widget bounds (and the default, hence accepted, window) end at
19800101, while the intersection of all contributing series' ranges — the
national series included — ends at 19500101: the requestable window is not
constrained to that intersection, since the 3cols bounds omit the national
series.  In economics_dashboard.py the same inputs give common_end 19500101. -/
theorem C5_counterexample :
    common_bounds3 ["California"] apiC5 = some (19760101, 19800101) ∧
    datesMax (get_series apiC5 "UNRATE") = 19500101 ∧
    common_end (get_series apiC5 "UNRATE") ["California"] apiC5 = 19500101 ∧
    ¬ (19800101 ≤ 19500101) := by decide

/-- C5 amended: in economics_dashboard.py the window widget's bounds are the
intersection of the available ranges of the national and every selected
state's series, so any widget-accepted start and end lie within every
contributing series' range, the national included; and the assembled table is
filtered to rows whose date lies within the accepted window, inclusive on
both ends.  In economics_dashboard_3cols.py the widget bounds are computed
from the selected state series only, omitting the national series (the
deviation exhibited by C5_counterexample). -/
theorem C5_window_clamp (us : Series) (sel : List String) (api : FredApi)
    (s e : Nat) (t : CompTable) (r : CRow)
    (hs1 : common_start us sel api ≤ s) (_hs2 : s ≤ common_end us sel api)
    (_he1 : common_start us sel api ≤ e) (he2 : e ≤ common_end us sel api) :
    (datesMin us ≤ s ∧ e ≤ datesMax us ∧
      ∀ st ∈ sel, datesMin (get_series api (seriesId st)) ≤ s ∧
        e ≤ datesMax (get_series api (seriesId st))) ∧
    (r ∈ (filterWindow t s e).rows ↔ r ∈ t.rows ∧ s ≤ r.date ∧ r.date ≤ e) := by
  unfold common_start at hs1
  unfold common_end at he2
  constructor
  · refine ⟨le_trans (le_foldl_max _ _) hs1, le_trans he2 (foldl_min_le _ _), ?_⟩
    intro st hst
    constructor
    · exact le_trans
        (mem_le_foldl_max (sel.map (fun x => datesMin (get_series api (seriesId x))))
          (datesMin us) _
          (List.mem_map_of_mem (fun x => datesMin (get_series api (seriesId x))) hst)) hs1
    · exact le_trans he2
        (foldl_min_le_mem (sel.map (fun x => datesMax (get_series api (seriesId x))))
          (datesMax us) _
          (List.mem_map_of_mem (fun x => datesMax (get_series api (seriesId x))) hst))
  · simp [filterWindow, List.mem_filter]

/-- A backend for the C5 witness: national and Louisiana series over the same
range. -/
def apiC5w : FredApi := fun id =>
  if id == "UNRATE" then some [(19760101, 3), (19800101, 4)]
  else if id == "LAUR" then some [(19760101, 6), (19800101, 7)]
  else none

/-- A concrete table and row for the C5 witness. -/
def tblC5 : CompTable := ⟨[], [⟨19760101, 3, []⟩]⟩

/-- Witness for C5's amended statement at a concrete backend, window, table
and row. -/
theorem C5_window_clamp_witness :
    (common_start (get_series apiC5w "UNRATE") ["Louisiana"] apiC5w ≤ 19760101 ∧
      19760101 ≤ common_end (get_series apiC5w "UNRATE") ["Louisiana"] apiC5w ∧
      common_start (get_series apiC5w "UNRATE") ["Louisiana"] apiC5w ≤ 19800101 ∧
      19800101 ≤ common_end (get_series apiC5w "UNRATE") ["Louisiana"] apiC5w) ∧
    ((datesMin (get_series apiC5w "UNRATE") ≤ 19760101 ∧
      19800101 ≤ datesMax (get_series apiC5w "UNRATE") ∧
      ∀ st ∈ (["Louisiana"] : List String),
        datesMin (get_series apiC5w (seriesId st)) ≤ 19760101 ∧
        19800101 ≤ datesMax (get_series apiC5w (seriesId st))) ∧
    ((⟨19760101, 3, []⟩ : CRow) ∈ (filterWindow tblC5 19760101 19800101).rows ↔
      (⟨19760101, 3, []⟩ : CRow) ∈ tblC5.rows ∧
        19760101 ≤ (19760101 : Nat) ∧ 19760101 ≤ (19800101 : Nat))) :=
  ⟨⟨by decide, by decide, by decide, by decide⟩,
    C5_window_clamp (get_series apiC5w "UNRATE") ["Louisiana"] apiC5w
      19760101 19800101 tblC5 ⟨19760101, 3, []⟩
      (by decide) (by decide) (by decide) (by decide)⟩

/-- C6: get_series always yields the two-column (date, value) series shape;
on an exception from the backing API it reports the failure and returns an
empty series, raising nothing to the caller; on success it returns the
backing date-indexed series unchanged, so its dates are ascending whenever
the backing API's date index is ascending (as FRED's is). -/
theorem C6_get_series_shape (api : FredApi) (series_id : String) :
    (api series_id = none →
      get_series api series_id = [] ∧ get_series_failed api series_id = true) ∧
    (∀ rows, api series_id = some rows →
      get_series api series_id = rows ∧ get_series_failed api series_id = false ∧
      (List.Sorted (· < ·) (rows.map Prod.fst) →
        List.Sorted (· < ·) ((get_series api series_id).map Prod.fst))) := by
  constructor
  · intro h
    simp [get_series, get_series_failed, h]
  · intro rows h
    refine ⟨by simp [get_series, h], by simp [get_series_failed, h], ?_⟩
    intro hs
    simpa [get_series, h] using hs

/-- A backend for the C6 witness: UNRATE succeeds with an ascending series,
everything else raises. -/
def apiC6 : FredApi := fun id =>
  if id == "UNRATE" then some [(19900101, 5), (19900201, 6)] else none

/-- Witness for C6 at a concrete backend, with one failing and one
succeeding retrieval. -/
theorem C6_get_series_shape_witness :
    (get_series apiC6 "XXUR" = [] ∧ get_series_failed apiC6 "XXUR" = true) ∧
    (get_series apiC6 "UNRATE" = [(19900101, 5), (19900201, 6)] ∧
      get_series_failed apiC6 "UNRATE" = false ∧
      List.Sorted (· < ·) ((get_series apiC6 "UNRATE").map Prod.fst)) :=
  ⟨(C6_get_series_shape apiC6 "XXUR").1 rfl,
    ⟨((C6_get_series_shape apiC6 "UNRATE").2 [(19900101, 5), (19900201, 6)] rfl).1,
      ((C6_get_series_shape apiC6 "UNRATE").2 [(19900101, 5), (19900201, 6)] rfl).2.1,
      ((C6_get_series_shape apiC6 "UNRATE").2 [(19900101, 5), (19900201, 6)] rfl).2.2
        (by decide)⟩⟩


lemma all_map_comp {α β : Type} (l : List α) (f : α → β) (p : β → Bool) :
    (l.map f).all p = l.all (fun x => p (f x)) := by
  induction l with
  | nil => rfl
  | cons x xs ih => simp [List.all_cons, ih]

lemma load_county_data_date_ok (parseDate : String → Option Nat)
    (parseYear : String → Option Int) (file : CountyFile)
    (hp : file.hasParish = true) (hd : file.hasDate = true)
    (hall : file.rows.all (fun r => (parseDate r.dateStr).isNone) = false) :
    load_county_data parseDate parseYear file =
      ⟨true,
        (file.rows.map (fun r =>
          (⟨strip r.parish, parseDate r.dateStr,
            (parseDate r.dateStr).map (fun d => (yearOf d : Int)),
            LA_PARISH_FIPS.lookup (strip r.parish)⟩ : CountyRowOut))).filter
          (fun r => r.fips.isSome),
        false⟩ := by
  have hC : ((file.rows.map (fun r => { r with parish := strip r.parish })).map
      (fun r => (r, parseDate r.dateStr))).all (fun rd => rd.2.isNone) = false := by
    rw [List.map_map, all_map_comp]
    exact hall
  unfold load_county_data
  rw [if_neg (not_not_intro hp), if_pos hd,
    if_neg (by rw [hC]; exact Bool.false_ne_true), List.map_map, List.map_map]
  rfl

lemma load_county_data_date_fatal (parseDate : String → Option Nat)
    (parseYear : String → Option Int) (file : CountyFile)
    (hp : file.hasParish = true) (hd : file.hasDate = true)
    (hall : file.rows.all (fun r => (parseDate r.dateStr).isNone) = true) :
    load_county_data parseDate parseYear file = ⟨true, [], true⟩ := by
  have hC : ((file.rows.map (fun r => { r with parish := strip r.parish })).map
      (fun r => (r, parseDate r.dateStr))).all (fun rd => rd.2.isNone) = true := by
    rw [List.map_map, all_map_comp]
    exact hall
  unfold load_county_data
  rw [if_neg (not_not_intro hp), if_pos hd, if_pos hC]

lemma load_county_data_year_ok (parseDate : String → Option Nat)
    (parseYear : String → Option Int) (file : CountyFile)
    (hp : file.hasParish = true) (hd : file.hasDate = false) (hy : file.hasYear = true) :
    load_county_data parseDate parseYear file =
      ⟨false,
        (file.rows.map (fun r =>
          (⟨strip r.parish, none, parseYear r.yearStr,
            LA_PARISH_FIPS.lookup (strip r.parish)⟩ : CountyRowOut))).filter
          (fun r => r.fips.isSome),
        false⟩ := by
  unfold load_county_data
  rw [if_neg (not_not_intro hp), if_neg (by rw [hd]; exact Bool.false_ne_true),
    if_pos hy, List.map_map]
  rfl

/-- Date parser for the C7 scenario: only the cell 1990-01-01 parses. -/
def parseDateC7 : String → Option Nat := fun s =>
  if s == "1990-01-01" then some 19900101 else none

/-- Bulk file for the C7 scenario: the Acadia row's date parses, the Allen
row's date does not. -/
def fileC7 : CountyFile :=
  ⟨true, true, false, [⟨"Acadia", "1990-01-01", ""⟩, ⟨"Allen", "garbage", ""⟩]⟩

/-- C7 fails as stated: the Allen row's date fails to parse, yet the row is
kept in the output dataset (with null date and year) rather than dropped,
and no diagnostic is reported. -/
theorem C7_counterexample :
    (⟨"Allen", none, none, some "22003"⟩ : CountyRowOut)
      ∈ (load_county_data parseDateC7 (fun _ => none) fileC7).rows ∧
    (load_county_data parseDateC7 (fun _ => none) fileC7).fatalReported = false := by
  decide

/-- C7 amended: in the Date branch, when not every date cell fails to parse,
no diagnostic is reported and every input row whose stripped parish name is
in the catalog is retained in the output — rows with unparsable dates are
kept with a null date and year, not dropped; when every date cell fails to
parse the load is fatal: a diagnostic is reported and the dataset is empty. -/
theorem C7_tolerant_dates (parseDate : String → Option Nat)
    (parseYear : String → Option Int) (file : CountyFile)
    (hp : file.hasParish = true) (hd : file.hasDate = true) :
    (¬ (∀ r ∈ file.rows, (parseDate r.dateStr).isNone = true) →
      ((load_county_data parseDate parseYear file).fatalReported = false ∧
        ∀ r ∈ file.rows, (LA_PARISH_FIPS.lookup (strip r.parish)).isSome = true →
          (⟨strip r.parish, parseDate r.dateStr,
            (parseDate r.dateStr).map (fun d => (yearOf d : Int)),
            LA_PARISH_FIPS.lookup (strip r.parish)⟩ : CountyRowOut)
            ∈ (load_county_data parseDate parseYear file).rows)) ∧
    ((∀ r ∈ file.rows, (parseDate r.dateStr).isNone = true) →
      (load_county_data parseDate parseYear file).rows = [] ∧
      (load_county_data parseDate parseYear file).fatalReported = true) := by
  constructor
  · intro hne
    have hall : file.rows.all (fun r => (parseDate r.dateStr).isNone) = false := by
      cases h : file.rows.all (fun r => (parseDate r.dateStr).isNone) with
      | false => rfl
      | true => exact absurd (fun r hr => List.all_eq_true.mp h r hr) hne
    rw [load_county_data_date_ok parseDate parseYear file hp hd hall]
    refine ⟨rfl, ?_⟩
    intro r hr hsome
    rw [List.mem_filter]
    exact ⟨List.mem_map_of_mem _ hr, hsome⟩
  · intro hall
    rw [load_county_data_date_fatal parseDate parseYear file hp hd
      (List.all_eq_true.mpr (fun r hr => hall r hr))]
    exact ⟨rfl, rfl⟩

/-- Witness for C7's amended statement at the C7 scenario file. -/
theorem C7_tolerant_dates_witness :
    (fileC7.hasParish = true) ∧ (fileC7.hasDate = true) ∧
    (¬ (∀ r ∈ fileC7.rows, (parseDateC7 r.dateStr).isNone = true)) ∧
    ((load_county_data parseDateC7 (fun _ => none) fileC7).fatalReported = false ∧
      ∀ r ∈ fileC7.rows, (LA_PARISH_FIPS.lookup (strip r.parish)).isSome = true →
        (⟨strip r.parish, parseDateC7 r.dateStr,
          (parseDateC7 r.dateStr).map (fun d => (yearOf d : Int)),
          LA_PARISH_FIPS.lookup (strip r.parish)⟩ : CountyRowOut)
          ∈ (load_county_data parseDateC7 (fun _ => none) fileC7).rows) :=
  ⟨rfl, rfl, by decide,
    (C7_tolerant_dates parseDateC7 (fun _ => none) fileC7 rfl rfl).1 (by decide)⟩

/-- C8: every row of the loaded county dataset has a non-null geographic
code: its fips field is exactly the catalog lookup of its (stripped) parish
name and that lookup succeeded — rows whose lookup missed were dropped
before the dataset was returned — for every input file the loader accepts
and every parser behavior. -/
theorem C8_fips_nonnull (parseDate : String → Option Nat)
    (parseYear : String → Option Int) (file : CountyFile) :
    ∀ r ∈ (load_county_data parseDate parseYear file).rows,
      r.fips.isSome = true ∧ r.fips = LA_PARISH_FIPS.lookup r.parish := by
  intro r hr
  cases hp : file.hasParish with
  | false =>
    rw [show load_county_data parseDate parseYear file = ⟨false, [], true⟩ from by
      unfold load_county_data
      rw [if_pos (by rw [hp]; exact Bool.false_ne_true)]] at hr
    simp at hr
  | true =>
    cases hd : file.hasDate with
    | true =>
      cases hall : file.rows.all (fun x => (parseDate x.dateStr).isNone) with
      | true =>
        rw [load_county_data_date_fatal parseDate parseYear file hp hd hall] at hr
        simp at hr
      | false =>
        rw [load_county_data_date_ok parseDate parseYear file hp hd hall] at hr
        obtain ⟨hmem, hsome⟩ := List.mem_filter.mp hr
        obtain ⟨rd, _, rfl⟩ := List.mem_map.mp hmem
        exact ⟨hsome, rfl⟩
    | false =>
      cases hy : file.hasYear with
      | true =>
        rw [load_county_data_year_ok parseDate parseYear file hp hd hy] at hr
        obtain ⟨hmem, hsome⟩ := List.mem_filter.mp hr
        obtain ⟨rd, _, rfl⟩ := List.mem_map.mp hmem
        exact ⟨hsome, rfl⟩
      | false =>
        rw [show load_county_data parseDate parseYear file = ⟨false, [], true⟩ from by
          unfold load_county_data
          rw [if_neg (not_not_intro hp), if_neg (by rw [hd]; exact Bool.false_ne_true),
            if_neg (by rw [hy]; exact Bool.false_ne_true)]] at hr
        simp at hr

/-- Date parser for the C8 witness scenario. -/
def parseDateC8 : String → Option Nat := fun s =>
  if s == "1990-01-01" then some 19900101 else none

/-- Bulk file for the C8 witness scenario. -/
def fileC8 : CountyFile := ⟨true, true, false, [⟨"Acadia", "1990-01-01", ""⟩]⟩

/-- Witness for C8 at a concrete file and row. -/
theorem C8_fips_nonnull_witness :
    ((⟨"Acadia", some 19900101, some 1990, some "22001"⟩ : CountyRowOut)
        ∈ (load_county_data parseDateC8 (fun _ => none) fileC8).rows) ∧
    ((⟨"Acadia", some 19900101, some 1990, some "22001"⟩ : CountyRowOut).fips.isSome = true ∧
      (⟨"Acadia", some 19900101, some 1990, some "22001"⟩ : CountyRowOut).fips
        = LA_PARISH_FIPS.lookup
            (⟨"Acadia", some 19900101, some 1990, some "22001"⟩ : CountyRowOut).parish) :=
  ⟨by decide, C8_fips_nonnull parseDateC8 (fun _ => none) fileC8 _ (by decide)⟩

/-- Date parser for the C9 scenario. -/
def parseDateC9 : String → Option Nat := fun s =>
  if s == "1990-01-01" then some 19900101 else none

/-- Bulk file for the C9 scenario: one row named "St.Tammany " (no space
after the period, trailing space) and one named "St. Tammany". -/
def fileC9 : CountyFile :=
  ⟨true, true, false,
    [⟨"St.Tammany ", "1990-01-01", ""⟩, ⟨"St. Tammany", "1990-01-01", ""⟩]⟩

/-- C9 fails as stated: normalization turns "St.Tammany " into "St.Tammany",
which has no entry in the exact-match catalog, so that row is dropped from
the loaded dataset instead of resolving to 22103; only the correctly
spelled "St. Tammany" row resolves to 22103. -/
theorem C9_counterexample :
    LA_PARISH_FIPS.lookup (strip "St.Tammany ") = none ∧
    LA_PARISH_FIPS.lookup "St. Tammany" = some "22103" ∧
    (load_county_data parseDateC9 (fun _ => none) fileC9).rows =
      [⟨"St. Tammany", some 19900101, some 1990, some "22103"⟩] := by
  decide

/-- C9 amended: the loader's region-name normalization removes surrounding
whitespace only, so " St. Tammany " resolves to the same code 22103 as
"St. Tammany", while "St.Tammany " — which differs beyond whitespace —
strips to "St.Tammany", misses the catalog, and its row is dropped from the
dataset. -/
theorem C9_strip_only_whitespace :
    LA_PARISH_FIPS.lookup (strip " St. Tammany ") = some "22103" ∧
    LA_PARISH_FIPS.lookup "St. Tammany" = some "22103" ∧
    LA_PARISH_FIPS.lookup (strip "St.Tammany ") = none ∧
    ((load_county_data parseDateC9 (fun _ => none) fileC9).rows.all
      (fun r => r.parish != "St.Tammany")) = true := by
  decide

/-- C10: when the bulk file has a year column but no Date column, the
loader's year-fallback branch yields a non-empty frame without a Date
column, and the county sidebar's unconditional read of county_df Date fails
(the KeyError modeled by county_common_bounds returning none) — so a
non-empty dataset from this branch never reaches a rendered county view. -/
theorem C10_year_branch_unrenderable (parseDate : String → Option Nat)
    (parseYear : String → Option Int) (file : CountyFile)
    (hp : file.hasParish = true) (hd : file.hasDate = false) (hy : file.hasYear = true)
    (_hne : (load_county_data parseDate parseYear file).rows ≠ []) :
    (load_county_data parseDate parseYear file).hasDateCol = false ∧
    county_common_bounds (load_county_data parseDate parseYear file) = none := by
  rw [load_county_data_year_ok parseDate parseYear file hp hd hy]
  exact ⟨rfl, rfl⟩

/-- Year parser for the C10 witness scenario. -/
def parseYearC10 : String → Option Int := fun s =>
  if s == "1990" then some 1990 else none

/-- Bulk file for the C10 witness scenario: a year column, no Date column. -/
def fileC10 : CountyFile := ⟨true, false, true, [⟨"Acadia", "", "1990"⟩]⟩

/-- Witness for C10 at a concrete file producing a non-empty dataset. -/
theorem C10_year_branch_unrenderable_witness :
    (fileC10.hasParish = true) ∧ (fileC10.hasDate = false) ∧ (fileC10.hasYear = true) ∧
    ((load_county_data (fun _ => none) parseYearC10 fileC10).rows ≠ []) ∧
    ((load_county_data (fun _ => none) parseYearC10 fileC10).hasDateCol = false ∧
      county_common_bounds (load_county_data (fun _ => none) parseYearC10 fileC10) = none) :=
  ⟨rfl, rfl, rfl, by decide,
    C10_year_branch_unrenderable (fun _ => none) parseYearC10 fileC10 rfl rfl rfl (by decide)⟩
